import Mathlib

/-!
Verification development for the Denver-Mesh meshtastic client core:
the Connection Resilience Manager (radio path, `useDevice.ts`), the
Broker Bridge (`MQTTManager`), and the shared ingestion rules
(coordinate validation, RF-vs-broker provenance merge).

Each section embeds the relevant source code as executable Lean
definitions; theorems about the spec's claims follow at the end.
JS numbers used for coordinates and signal values are modelled as
rationals (all comparisons in the source are exact on the values the
claims mention); machine integers are `Nat` with explicit `% 2^32`
where the source applies `>>> 0`; JS `Map` objects are association
lists with last-write-wins lookup.
-/

namespace MeshClient

/-! ### Coordinate validation (src/renderer/lib/coordUtils.ts and coordWarning in the broker bridge)

Both ingestion paths carry one of four rejection reasons; the warning
strings only interpolate the offending value into a fixed template, so
they are modelled as an enumeration of the four templates. -/

/-- The four warning templates produced by the validators. -/
inductive CoordWarn where
  | noFix      -- "No GPS fix (0°, 0°)"
  | latRange   -- "Latitude out of range: ..."
  | lonRange   -- "Longitude out of range: ..."
  | northPole  -- "GPS no fix (reports North Pole)"
  deriving DecidableEq, Repr

/-- Result record of `validateCoords` in coordUtils.ts. -/
structure CoordValidation where
  valid : Bool
  warning : Option CoordWarn
  deriving DecidableEq, Repr

/-- Function `validateCoords` from src/renderer/lib/coordUtils.ts. -/
def validateCoords (lat lon : ℚ) : CoordValidation :=
  if lat = 0 ∧ lon = 0 then ⟨false, some .noFix⟩
  else if lat < -90 ∨ lat > 90 then ⟨false, some .latRange⟩
  else if lon < -180 ∨ lon > 180 then ⟨false, some .lonRange⟩
  else if lat = 90 ∧ lon = 0 then ⟨false, some .northPole⟩
  else ⟨true, none⟩

/-- Function `coordWarning` from the broker bridge (MQTTManager source). -/
def coordWarning (lat lon : ℚ) : Option CoordWarn :=
  if lat = 0 ∧ lon = 0 then some .noFix
  else if lat < -90 ∨ lat > 90 then some .latRange
  else if lon < -180 ∨ lon > 180 then some .lonRange
  else if lat = 90 ∧ lon = 0 then some .northPole
  else none

/-! ### AES-128-CTR counter block (nonce) construction (MQTTManager.tryDecrypt / MQTTManager.publish)

`Buffer.alloc(16, 0)` then `writeUInt32LE(packetId >>> 0, 0)` and
`writeUInt32LE(from >>> 0, 4)`.  A Buffer is a byte list; `>>> 0` is
`% 2^32`. -/

/-- Byte buffer creation, `Buffer.alloc`: `n` copies of `v`. -/
def bufAlloc (n v : Nat) : List Nat := List.replicate n v

/-- Node's `Buffer.writeUInt32LE value offset`: splice the four little-endian
bytes of `value` into the buffer at `offset`. -/
def writeUInt32LE (buf : List Nat) (value offset : Nat) : List Nat :=
  buf.take offset ++
    [value % 256, value / 256 % 256, value / 65536 % 256, value / 16777216 % 256] ++
    buf.drop (offset + 4)

/-- The 16-byte counter block built by both `tryDecrypt` (inbound) and
`publish` (outbound): packet id at offset 0, sender id at offset 4,
each as `>>> 0` (i.e. mod 2^32) little-endian. -/
def mkNonce (packetId sender : Nat) : List Nat :=
  writeUInt32LE (writeUInt32LE (bufAlloc 16 0) (packetId % 2 ^ 32) 0) (sender % 2 ^ 32) 4

/-- Little-endian 4-byte rendering of a 32-bit value (the spec's
"little-endian 32-bit integer" in bytes 0-3 resp. 4-7). -/
def le4 (v : Nat) : List Nat :=
  [v % 256, v / 256 % 256, v / 65536 % 256, v / 16777216 % 256]

/-! ### Broker subscribe-topic construction (MQTTManager._doConnect / publish)

`settings.topicPrefix.endsWith("/") ? prefix : prefix + "/"`, then the
wildcard `#` is appended.  Topics are modelled as character lists. -/

/-- The prefix normalization the source applies: append a '/' iff the
configured prefix does not already end in one. -/
def normalizePfx (pfx : List Char) : List Char :=
  if pfx.getLast? = some '/' then pfx else pfx ++ ['/']

/-- The topic subscribed to on the broker's connect acknowledgment:
normalized prefix plus the wildcard suffix. -/
def subTopic (pfx : List Char) : List Char :=
  normalizePfx pfx ++ ['#']

/-- Modelled from the spec: a prefix "normalized to end in exactly one
separator" — all trailing separators removed, then a single one
appended.  Used only to compare the spec's wording with the source's
normalization. -/
def specNormalizePfx (pfx : List Char) : List Char :=
  (pfx.reverse.dropWhile (· = '/')).reverse ++ ['/']

/-! ### JS `Map<number, _>` model

A JS `Map` keeps insertion order; `set` replaces the value in place for
an existing key and appends otherwise.  Modelled as an association
list. -/

/-- Lookup, `Map.get` (first — and with `jsSet`, only — binding wins). -/
def jsGet {α : Type} : List (Nat × α) → Nat → Option α
  | [], _ => none
  | e :: rest, k => if e.1 = k then some e.2 else jsGet rest k

/-- Write, `Map.set`: replace in place if present, append otherwise. -/
def jsSet {α : Type} : List (Nat × α) → Nat → α → List (Nat × α)
  | [], k, v => [(k, v)]
  | e :: rest, k, v => if e.1 = k then (k, v) :: rest else e :: jsSet rest k v

/-! ### Broker Bridge (MQTTManager) session state machine

Fields of the `MQTTManager` class that the claims touch.  The client
identity, generated as a random string on every `_doConnect`, is
modelled by a counter (`clientIdSeed`) from which each fresh identity
is drawn, so "freshly generated" is represented by drawing the next
value. -/

/-- Enum `MQTTStatus` from the renderer type declarations. -/
inductive MQTTStatus where
  | disconnected | connecting | connected | error
  deriving DecidableEq, Repr

/-- The fields of `MQTTSettings` the manager's control flow reads. -/
structure MQTTSettings where
  topicPfx : List Char
  maxRetries : Option Nat
  deriving DecidableEq, Repr

/-- The socket-level error codes distinguished by the `error` handler. -/
inductive ErrCode where
  | econnreset | econnrefused | etimedout | enotfound
  | otherErr
  deriving DecidableEq, Repr

/-- The transient-error test in the `error` handler:
`ECONNRESET`, `ECONNREFUSED`, `ETIMEDOUT`, `ENOTFOUND`. -/
def isTransientErr : ErrCode → Bool
  | .econnreset => true
  | .econnrefused => true
  | .etimedout => true
  | .enotfound => true
  | .otherErr => false

/-- Mutable fields of the `MQTTManager` instance. -/
structure MState where
  status : MQTTStatus
  retryCount : Nat
  currentSettings : Option MQTTSettings
  seenPacketIds : List (Nat × Nat)
  reconnectTimer : Option Nat
  clientIdSeed : Nat
  clientId : Nat
  clientPresent : Bool
  deriving DecidableEq, Repr

/-- Method `setStatus`. -/
def setStatus (s : MState) (st : MQTTStatus) : MState :=
  { s with status := st }

/-- Method `setError`: flips status to `error` (and emits the message). -/
def setError (s : MState) : MState :=
  { s with status := .error }

/-- Method `_doConnect`: generates a fresh client identity and opens a new
broker client.  The connect/close/error handlers below are the events
this call wires. -/
def doConnect (s : MState) : MState :=
  { s with clientIdSeed := s.clientIdSeed + 1, clientId := s.clientIdSeed + 1,
           clientPresent := true }

/-- The `connect` event handler body (broker connect acknowledgment):
set status `connected`; the subscribe call it then issues uses
`subTopic` of the configured prefix. -/
def onConnectAck (s : MState) : MState :=
  setStatus s .connected

/-- The subscribe callback's success branch: retry count is reset only
after a fully stable connection plus subscribe. -/
def onSubscribeOk (s : MState) : MState :=
  { s with retryCount := 0 }

/-- The `close` event handler: bail out when already disconnected or
settings are gone; exhaust the retry budget into `error`; otherwise
increment the count, flip to `connecting` and schedule `_doConnect`
after `min(2000 * 2^(retryCount-1), 60000)` ms (the returned delay). -/
def onCloseEvent (s : MState) : MState × Option Nat :=
  if s.status = .disconnected ∨ s.currentSettings = none then (s, none)
  else
    let maxRetries := (s.currentSettings.map (fun st => st.maxRetries.getD 5)).getD 5
    if maxRetries ≤ s.retryCount then (setError s, none)
    else
      let rc := s.retryCount + 1
      let delay := min (2000 * 2 ^ (rc - 1)) 60000
      ({ s with retryCount := rc, status := .connecting, reconnectTimer := some delay },
        some delay)

/-- The scheduled reconnect timer firing: clear the timer handle, then
`_doConnect` unless the session was disconnected in the meantime. -/
def fireReconnectTimer (s : MState) : MState :=
  let s1 := { s with reconnectTimer := none }
  if s1.status ≠ .disconnected ∧ s1.currentSettings ≠ none then doConnect s1 else s1

/-- The `error` event handler: transient socket errors are only
logged; anything else flips status to `error`. -/
def onErrorEvent (s : MState) (c : ErrCode) : MState :=
  if isTransientErr c then s else setError s

/-- The `offline` event handler. -/
def onOfflineEvent (s : MState) : MState :=
  if s.status ≠ .disconnected then setStatus s .connecting else s

/-- Method `MQTTManager.disconnect`. -/
def mqttDisconnect (s : MState) : MState :=
  { s with reconnectTimer := none, currentSettings := none, retryCount := 0,
           clientPresent := false, status := .disconnected }

/-- Method `MQTTManager.connect(settings)`: tear down, store settings, reset
the retry count, go `connecting`, `_doConnect`. -/
def mqttConnect (s : MState) (settings : MQTTSettings) : MState :=
  let s1 := mqttDisconnect s
  doConnect { s1 with currentSettings := some settings, retryCount := 0,
                      status := .connecting }

/-! ### Broker Bridge inbound decode and dedup window -/

/-- Constant `DEDUP_TTL_MS = 10 * 60 * 1000`. -/
def DEDUP_TTL_MS : Nat := 10 * 60 * 1000

/-- Method `MQTTManager.isDuplicate`: occasional cleanup once the window
exceeds 10,000 entries, then report (without refreshing) identifiers
whose expiry lies in the future, registering everything else with a
fresh 10-minute expiry. -/
def mqttIsDuplicate (seen : List (Nat × Nat)) (now packetId : Nat) :
    Bool × List (Nat × Nat) :=
  let seen1 := if 10000 < seen.length then seen.filter (fun e => ¬ e.2 < now) else seen
  match jsGet seen1 packetId with
  | some expiry =>
    if now < expiry then (true, seen1)
    else (false, jsSet seen1 packetId (now + DEDUP_TTL_MS))
  | none => (false, jsSet seen1 packetId (now + DEDUP_TTL_MS))

/-- Meshtastic application port numbers used by `handleDecoded`. -/
def PORT_TEXT_MESSAGE_APP : Nat := 1
def PORT_POSITION_APP : Nat := 3
def PORT_NODEINFO_APP : Nat := 4

/-- Decoded `User` protobuf fields read by the bridge.  String values
carry no control flow beyond emptiness, so strings are modelled as
numeric atom codes with`0` for the empty string. -/
structure UserInfo where
  longName : Nat
  shortName : Nat
  hwModel : Nat
  deriving DecidableEq, Repr

/-- Decoded `Position` protobuf fields read by the bridge:
`latitudeI`/`longitudeI` are the 1e-7-degree integers. -/
structure PosInfo where
  latitudeI : Int
  longitudeI : Int
  altitude : Option ℚ
  deriving DecidableEq, Repr

/-- What the payload bytes of a `Data` frame decode to under the
schema chosen by its port number; `badBytes` stands for bytes on which
that decode throws. -/
inductive PayloadContent where
  | userPayload (u : UserInfo)
  | positionPayload (p : PosInfo)
  | textPayload (t : Nat)
  | badBytes
  deriving DecidableEq, Repr

/-- A decoded `Data` frame: port number plus optional payload bytes. -/
structure DataMsg where
  portnum : Nat
  payload : Option PayloadContent
  deriving DecidableEq, Repr

/-- Outcome of `tryDecrypt` + `fromBinary(DataSchema, ·)` on an
encrypted inner payload: both succeed, decrypt succeeds but the parse
throws, or `tryDecrypt` returns null. -/
inductive EncOutcome where
  | decOk (d : DataMsg)
  | decParseFail
  | decFail
  deriving DecidableEq, Repr

/-- Field `MeshPacket.payloadVariant`. -/
inductive PayloadVariant where
  | decoded (d : DataMsg)
  | encrypted (o : EncOutcome)
  deriving DecidableEq, Repr

/-- The fields of a decoded `MeshPacket` read by `onMessage`. -/
structure MPacket where
  fromId : Nat
  id : Nat
  payloadVariant : Option PayloadVariant
  deriving DecidableEq, Repr

/-- A parsed `ServiceEnvelope` (messages that fail the envelope parse
are swallowed before reaching this point). -/
structure Envelope where
  packet : Option MPacket
  deriving DecidableEq, Repr

/-- A node update as emitted by the bridge over the `nodeUpdate`
channel.  Only the keys some emit site actually writes appear; an
`Option (Option _)` distinguishes an absent key from a key explicitly
present with an undefined/null value (which the renderer's object
spread copies). -/
structure MqttNodeUpd where
  node_id : Nat
  long_name : Option Nat := none
  short_name : Option Nat := none
  hw_model : Option Nat := none
  latitude : Option ℚ := none
  longitude : Option ℚ := none
  altitude : Option (Option ℚ) := none
  last_heard : Nat
  positionWarning : Option (Option CoordWarn) := none
  deriving DecidableEq, Repr

/-- A chat message as emitted by the bridge over the `message`
channel. -/
structure BrokerMsg where
  sender_id : Nat
  payload : Nat
  channel : Nat
  timestamp : Nat
  packetId : Nat
  deriving DecidableEq, Repr

/-- An event the bridge emits toward the renderer. -/
inductive BrokerEmit where
  | nodeUpdate (u : MqttNodeUpd)
  | message (m : BrokerMsg)
  deriving DecidableEq, Repr

/-- Method `emitMinimalNodeUpdate`. -/
def minimalNodeUpdate (nodeId now : Nat) : BrokerEmit :=
  .nodeUpdate { node_id := nodeId, last_heard := now }

/-- Method `MQTTManager.handleDecoded`: dispatch one decoded inner frame by
port number; every failing or unknown branch degrades to the minimal
node-seen update. -/
def handleDecoded (nodeId packetId now : Nat) (d : DataMsg) : List BrokerEmit :=
  if d.portnum = PORT_NODEINFO_APP ∧ d.payload.isSome then
    match d.payload with
    | some (.userPayload u) =>
      [.nodeUpdate { node_id := nodeId, long_name := some u.longName,
                     short_name := some u.shortName, hw_model := some u.hwModel,
                     last_heard := now }]
    | _ => [minimalNodeUpdate nodeId now]
  else if d.portnum = PORT_POSITION_APP ∧ d.payload.isSome then
    match d.payload with
    | some (.positionPayload pos) =>
      let lat : ℚ := (pos.latitudeI : ℚ) / 10000000
      let lon : ℚ := (pos.longitudeI : ℚ) / 10000000
      match coordWarning lat lon with
      | some w =>
        [.nodeUpdate { node_id := nodeId, positionWarning := some (some w),
                       last_heard := now }]
      | none =>
        if pos.latitudeI ≠ 0 ∨ pos.longitudeI ≠ 0 then
          [.nodeUpdate { node_id := nodeId, latitude := some lat, longitude := some lon,
                         altitude := some pos.altitude, last_heard := now,
                         positionWarning := some none }]
        else [minimalNodeUpdate nodeId now]
    | _ => [minimalNodeUpdate nodeId now]
  else if d.portnum = PORT_TEXT_MESSAGE_APP ∧ d.payload.isSome then
    match d.payload with
    | some (.textPayload t) =>
      [.message { sender_id := nodeId, payload := t, channel := 0,
                  timestamp := now, packetId := packetId },
       minimalNodeUpdate nodeId now]
    | _ => [minimalNodeUpdate nodeId now]
  else [minimalNodeUpdate nodeId now]

/-- Method `MQTTManager.onMessage`: unwrap the envelope, drop packets without
a sender, consult the dedup window only for a truthy (nonzero) packet
identifier, then dispatch the decoded or decrypted inner frame. -/
def onMessage (s : MState) (now : Nat) (env : Envelope) : MState × List BrokerEmit :=
  match env.packet with
  | none => (s, [])
  | some pkt =>
    if pkt.fromId = 0 then (s, [])
    else
      let nodeId := pkt.fromId
      let packetId := pkt.id
      let dupSeen :=
        if packetId ≠ 0 then mqttIsDuplicate s.seenPacketIds now packetId
        else (false, s.seenPacketIds)
      let s1 := { s with seenPacketIds := dupSeen.2 }
      if dupSeen.1 then (s1, [])
      else
        match pkt.payloadVariant with
        | some (.decoded d) => (s1, handleDecoded nodeId packetId now d)
        | some (.encrypted (.decOk d)) => (s1, handleDecoded nodeId packetId now d)
        | some (.encrypted .decParseFail) => (s1, [minimalNodeUpdate nodeId now])
        | some (.encrypted .decFail) => (s1, [minimalNodeUpdate nodeId now])
        | none => (s1, [])

/-! ### Shared node model and the RF/broker provenance merge (useDevice.ts)

`MeshNode` records as the renderer stores them; string-valued fields
are numeric atom codes (`0` = empty string) since the merge logic
never inspects their contents.  `heard_via_mqtt_only` is a boolean the
code reads with JS truthiness, so an unset flag (as produced by
`emptyNode`) is modelled as `false`. -/

/-- The `source` provenance tag. -/
inductive Src where
  | rf | mqtt
  deriving DecidableEq, Repr

/-- The renderer's stored node record. -/
structure MeshNode where
  node_id : Nat
  long_name : Nat
  short_name : Nat
  hw_model : Nat
  snr : ℚ
  rssi : Option ℚ
  battery : ℚ
  last_heard : Nat
  latitude : ℚ
  longitude : ℚ
  altitude : Option ℚ
  role : Option Nat
  hops_away : Option Nat
  via_mqtt : Option Bool
  voltage : Option ℚ
  channel_utiliz : Option ℚ
  air_util_tx : Option ℚ
  heard_via_mqtt_only : Bool
  source : Option Src
  lastPositionWarning : Option CoordWarn
  deriving DecidableEq, Repr

/-- Function `emptyNode` from useDevice.ts. -/
def emptyNode (nodeId : Nat) : MeshNode :=
  { node_id := nodeId, long_name := 0, short_name := 0, hw_model := 0,
    snr := 0, rssi := none, battery := 0, last_heard := 0,
    latitude := 0, longitude := 0, altitude := none, role := none,
    hops_away := none, via_mqtt := none, voltage := none,
    channel_utiliz := none, air_util_tx := none,
    heard_via_mqtt_only := false, source := none, lastPositionWarning := none }

/-- The node-map side of the hook's state: the RF-heard id set
(`rfHeardNodeIds`), the node map (`nodesRef`), and the own node
number. -/
structure AppState where
  rfHeard : List Nat
  nodes : List (Nat × MeshNode)
  myNodeNum : Nat
  deriving DecidableEq, Repr

/-- The `mqtt.onNodeUpdate` subscription handler: guard against a
falsy node id, spread the update over the existing (or empty) record,
stamp provenance, suppress RF metrics for broker-only nodes, validate
any coordinates carried by the update, and apply an explicit
`positionWarning` key last. -/
def mqttOnNodeUpdate (s : AppState) (_now : Nat) (upd : MqttNodeUpd) : AppState :=
  if upd.node_id = 0 then s
  else
    let existing := (jsGet s.nodes upd.node_id).getD (emptyNode upd.node_id)
    let heardViaRF := upd.node_id ∈ s.rfHeard
    let node : MeshNode :=
      { existing with
        node_id := upd.node_id
        long_name := upd.long_name.getD existing.long_name
        short_name := upd.short_name.getD existing.short_name
        hw_model := upd.hw_model.getD existing.hw_model
        latitude := upd.latitude.getD existing.latitude
        longitude := upd.longitude.getD existing.longitude
        altitude := upd.altitude.getD existing.altitude
        heard_via_mqtt_only := !heardViaRF
        source := some (if heardViaRF then Src.rf else Src.mqtt)
        last_heard := upd.last_heard }
    let node :=
      if !heardViaRF then
        { node with hops_away := existing.hops_away, snr := existing.snr,
                    rssi := existing.rssi }
      else node
    let node :=
      if upd.latitude.isSome ∨ upd.longitude.isSome then
        let lat := upd.latitude.getD 0
        let lon := upd.longitude.getD 0
        let r := validateCoords lat lon
        if !r.valid then
          { node with latitude := existing.latitude, longitude := existing.longitude,
                      lastPositionWarning := r.warning }
        else { node with lastPositionWarning := none }
      else node
    let node :=
      match upd.positionWarning with
      | some (some w) => { node with lastPositionWarning := some w }
      | some none => { node with lastPositionWarning := none }
      | none => node
    { s with nodes := jsSet s.nodes upd.node_id node }

/-- The `user` fields read by the `onUserPacket` subscriber. -/
structure UserPkt where
  longName : Option Nat
  shortName : Option Nat
  hwModel : Option Nat
  role : Option Nat := none
  deriving DecidableEq, Repr

/-- The `onUserPacket` subscriber: record the sender as RF-heard, then
merge its identity with `heard_via_mqtt_only` forced false. -/
def onUserPacket (s : AppState) (now fromId : Nat) (u : UserPkt) : AppState :=
  let s := { s with rfHeard := s.rfHeard.insert fromId }
  let existing := (jsGet s.nodes fromId).getD (emptyNode fromId)
  let node : MeshNode :=
    { existing with
      node_id := fromId
      long_name := u.longName.getD existing.long_name
      short_name := u.shortName.getD existing.short_name
      hw_model := u.hwModel.getD existing.hw_model
      last_heard := now
      heard_via_mqtt_only := false
      source := some .rf }
  { s with nodes := jsSet s.nodes fromId node }

/-- The position sub-record of a NodeInfo packet. -/
structure NodeInfoPos where
  latitudeI : Option Int
  longitudeI : Option Int
  altitude : Option ℚ
  deriving DecidableEq, Repr

/-- Device metrics sub-record of a NodeInfo packet. -/
structure NodeInfoMetrics where
  batteryLevel : Option ℚ
  voltage : Option ℚ
  channelUtiliz : Option ℚ
  airUtilTx : Option ℚ
  deriving DecidableEq, Repr

/-- The fields of a NodeInfo packet the subscriber reads.  `num` is a
proto3 uint32 (always decoded, 0 when unset), so the source's
defensive `num ?? from` fallback always yields `num`. -/
structure NodeInfoPkt where
  num : Nat
  user : Option UserPkt
  snr : Option ℚ
  position : Option NodeInfoPos
  deviceMetrics : Option NodeInfoMetrics
  lastHeard : Option Nat
  hopsAway : Option Nat
  viaMqtt : Option Bool
  deriving DecidableEq, Repr

/-- The `onNodeInfoPacket` subscriber: record the node as RF-heard,
bail out for a falsy `num`, validate any carried position, and merge
with `heard_via_mqtt_only` forced false and `source` rf. -/
def onNodeInfoPacket (s : AppState) (_now : Nat) (info : NodeInfoPkt) : AppState :=
  let s := { s with rfHeard := s.rfHeard.insert info.num }
  if info.num = 0 then s
  else
    let existing := (jsGet s.nodes info.num).getD (emptyNode info.num)
    let posRead :=
      match info.position with
      | some p =>
        if p.latitudeI.isSome ∨ p.longitudeI.isSome then
          let lat : ℚ := ((p.latitudeI.getD 0 : Int) : ℚ) / 10000000
          let lon : ℚ := ((p.longitudeI.getD 0 : Int) : ℚ) / 10000000
          let r := validateCoords lat lon
          if r.valid then (lat, lon, p.altitude.orElse (fun _ => existing.altitude), none)
          else (existing.latitude, existing.longitude,
                p.altitude.orElse (fun _ => existing.altitude), r.warning)
        else (existing.latitude, existing.longitude,
              p.altitude.orElse (fun _ => existing.altitude), existing.lastPositionWarning)
      | none => (existing.latitude, existing.longitude, existing.altitude,
                 existing.lastPositionWarning)
    let node : MeshNode :=
      { existing with
        node_id := info.num
        long_name := ((info.user.bind (·.longName)).getD existing.long_name)
        short_name := ((info.user.bind (·.shortName)).getD existing.short_name)
        hw_model := ((info.user.bind (·.hwModel)).getD existing.hw_model)
        snr := info.snr.getD existing.snr
        battery := ((info.deviceMetrics.bind (·.batteryLevel)).getD existing.battery)
        last_heard := if 0 < info.lastHeard.getD 0 then info.lastHeard.getD 0 * 1000
                      else existing.last_heard
        latitude := posRead.1
        longitude := posRead.2.1
        role := ((info.user.bind (·.role)).orElse (fun _ => existing.role))
        hops_away := (info.hopsAway.orElse (fun _ => existing.hops_away))
        via_mqtt := (info.viaMqtt.orElse (fun _ => existing.via_mqtt))
        voltage := ((info.deviceMetrics.bind (·.voltage)).orElse (fun _ => existing.voltage))
        channel_utiliz := ((info.deviceMetrics.bind (·.channelUtiliz)).orElse
          (fun _ => existing.channel_utiliz))
        air_util_tx := ((info.deviceMetrics.bind (·.airUtilTx)).orElse
          (fun _ => existing.air_util_tx))
        altitude := posRead.2.2.1
        heard_via_mqtt_only := false
        source := some .rf
        lastPositionWarning := posRead.2.2.2 }
    { s with nodes := jsSet s.nodes info.num node }

/-- The `onPositionPacket` subscriber: validate, and on rejection only
attach the warning (previously stored coordinates stay); on acceptance
store the coordinates and clear the warning. -/
def onPositionPacket (s : AppState) (now fromId : Nat) (pos : NodeInfoPos) : AppState :=
  let lat : ℚ := ((pos.latitudeI.getD 0 : Int) : ℚ) / 10000000
  let lon : ℚ := ((pos.longitudeI.getD 0 : Int) : ℚ) / 10000000
  let r := validateCoords lat lon
  let existing := (jsGet s.nodes fromId).getD (emptyNode fromId)
  if !r.valid then
    { s with nodes := jsSet s.nodes fromId { existing with lastPositionWarning := r.warning } }
  else
    let node : MeshNode :=
      { existing with
        latitude := lat
        longitude := lon
        altitude := pos.altitude.orElse (fun _ => existing.altitude)
        last_heard := now
        lastPositionWarning := none }
    { s with nodes := jsSet s.nodes fromId node }

/-- The device-metrics part of the `onTelemetryPacket` subscriber that
touches the node map: update the battery of an already-known sender
when the metrics carry a truthy battery level. -/
def onTelemetryPacket (s : AppState) (now fromId : Nat) (batteryLevel : Option ℚ) :
    AppState :=
  if (batteryLevel.getD 0 ≠ 0) ∧ fromId ≠ 0 then
    match jsGet s.nodes fromId with
    | some existing =>
      let node : MeshNode :=
        { existing with
          battery := batteryLevel.getD 0
          last_heard := now }
      { s with nodes := jsSet s.nodes fromId node }
    | none => s
  else s

/-- The second `onMeshPacket` subscriber (SNR/RSSI harvesting): for a
truthy sender carrying a truthy `rxSnr` or `rxRssi`, fold those into
an already-known node record. -/
def onMeshPacketSnr (s : AppState) (now fromId : Nat) (rxSnr rxRssi : Option ℚ) :
    AppState :=
  if fromId = 0 then s
  else if rxSnr.getD 0 ≠ 0 ∨ rxRssi.getD 0 ≠ 0 then
    match jsGet s.nodes fromId with
    | some existing =>
      let node : MeshNode :=
        { existing with
          snr := if rxSnr.getD 0 ≠ 0 then rxSnr.getD 0 else existing.snr
          rssi := if rxRssi.getD 0 ≠ 0 then rxRssi else existing.rssi
          last_heard := now }
      { s with nodes := jsSet s.nodes fromId node }
    | none => s
  else s

/-- The `onMyNodeInfo` subscriber: remember the own node number and
seed an empty record for it if absent. -/
def onMyNodeInfo (s : AppState) (num : Nat) : AppState :=
  let s := { s with myNodeNum := num }
  match jsGet s.nodes num with
  | some _ => s
  | none => { s with nodes := jsSet s.nodes num (emptyNode num) }

/-- The inbound events that write into the shared node model, tagged
with the wall-clock instant at which they are handled. -/
inductive NodeEvent where
  | rfUser (now fromId : Nat) (u : UserPkt)
  | rfNodeInfo (now : Nat) (info : NodeInfoPkt)
  | rfPosition (now fromId : Nat) (pos : NodeInfoPos)
  | rfTelemetry (now fromId : Nat) (batteryLevel : Option ℚ)
  | rfMeshSnr (now fromId : Nat) (rxSnr rxRssi : Option ℚ)
  | rfMyNodeInfo (num : Nat)
  | brokerNode (now : Nat) (upd : MqttNodeUpd)
  deriving DecidableEq, Repr

/-- One node-model step. -/
def nodeStep (s : AppState) : NodeEvent → AppState
  | .rfUser now fromId u => onUserPacket s now fromId u
  | .rfNodeInfo now info => onNodeInfoPacket s now info
  | .rfPosition now fromId pos => onPositionPacket s now fromId pos
  | .rfTelemetry now fromId b => onTelemetryPacket s now fromId b
  | .rfMeshSnr now fromId snr rssi => onMeshPacketSnr s now fromId snr rssi
  | .rfMyNodeInfo num => onMyNodeInfo s num
  | .brokerNode now upd => mqttOnNodeUpdate s now upd

/-- Folding a whole event trace. -/
def nodeSteps (s : AppState) (evs : List NodeEvent) : AppState :=
  evs.foldl nodeStep s

/-- An event that observes node `n` on the radio path: a user packet
from `n`, or a NodeInfo packet whose (truthy) node number is `n`. -/
def RadioObserves (e : NodeEvent) (n : Nat) : Prop :=
  (∃ now u, e = .rfUser now n u) ∨
  (∃ now info, e = .rfNodeInfo now info ∧ info.num = n ∧ n ≠ 0)

/-! ### Radio-path inbound text messages (first `onMeshPacket` subscriber)

The handler that delivers decoded TEXT_MESSAGE_APP packets to the
message list.  Message delivery status and reply bookkeeping are
carried along; note the handler never consults the shared
`seenPacketIds` dedup map. -/

/-- Constant 0xffffffff. -/
def BROADCAST_ADDR : Nat := 4294967295

/-- Delivery status of a locally visible message. -/
inductive MsgStatus where
  | sending | acked | failed
  deriving DecidableEq, Repr

/-- A renderer chat message (text payloads as numeric atom codes). -/
structure ChatMsg where
  sender_id : Nat
  payload : Nat
  channel : Nat
  timestamp : Nat
  packetId : Nat
  status : Option MsgStatus := none
  emoji : Option Nat := none
  replyId : Option Nat := none
  toDest : Option Nat := none
  deriving DecidableEq, Repr

/-- The decoded `Data` fields the text-message subscriber reads
(`emoji` and `replyId` are proto3 numerics, 0 when unset). -/
structure RfDataPkt where
  portnum : Nat
  payload : Nat
  emoji : Nat
  replyId : Nat
  deriving DecidableEq, Repr

/-- The `MeshPacket` fields the text-message subscriber reads. -/
structure RfMeshPacket where
  fromId : Nat
  toDest : Nat
  id : Nat
  channel : Nat
  rxTime : Nat
  decoded : Option RfDataPkt
  deriving DecidableEq, Repr

/-- The first `onMeshPacket` subscriber (text messages): skip
non-decoded and non-text packets, build the message (wiring the
pending reply id into an echo), dedup only reaction retransmissions by
(emoji, replyId, sender), and append.  Returns the new message list
and the updated pending-reply slot. -/
def rfTextHandler (myNodeNum : Nat) (pending : Option Nat) (now : Nat)
    (msgs : List ChatMsg) (p : RfMeshPacket) : List ChatMsg × Option Nat :=
  match p.decoded with
  | none => (msgs, pending)
  | some d =>
    if d.portnum ≠ PORT_TEXT_MESSAGE_APP then (msgs, pending)
    else
      let isEcho := p.fromId = myNodeNum
      let emoji : Option Nat := if d.emoji ≠ 0 then some d.emoji else none
      let replyId : Option Nat :=
        if d.replyId ≠ 0 then some d.replyId
        else if isEcho then pending.bind (fun r => if r ≠ 0 then some r else none)
        else none
      let pending' := if isEcho then none else pending
      let msg : ChatMsg :=
        { sender_id := p.fromId
          payload := d.payload
          channel := p.channel
          timestamp := if p.rxTime ≠ 0 then p.rxTime * 1000 else now
          packetId := p.id
          status := if isEcho then some .sending else none
          emoji := emoji
          replyId := replyId
          toDest := if p.toDest ≠ 0 ∧ p.toDest ≠ BROADCAST_ADDR then some p.toDest
                    else none }
      let isReactionDup :=
        emoji.isSome ∧ replyId.isSome ∧
          msgs.any (fun m =>
            m.emoji == msg.emoji ∧ m.replyId == msg.replyId ∧
              m.sender_id == msg.sender_id)
      if isReactionDup then (msgs, pending') else (msgs ++ [msg], pending')

/-! ### Renderer-side handler for broker messages (`mqtt.onMessage`) -/

/-- The renderer's `isDuplicate` helper (radio-side dedup window, TTL
10 minutes, opportunistic cleanup above 5,000 entries). -/
def rfIsDuplicate (seen : List (Nat × Nat)) (now packetId : Nat) :
    Bool × List (Nat × Nat) :=
  match jsGet seen packetId with
  | some expiry =>
    if now < expiry then (true, seen)
    else
      let seen1 := jsSet seen packetId (now + DEDUP_TTL_MS)
      (false, if 5000 < seen1.length then seen1.filter (fun e => ¬ e.2 < now) else seen1)
  | none =>
    let seen1 := jsSet seen packetId (now + DEDUP_TTL_MS)
    (false, if 5000 < seen1.length then seen1.filter (fun e => ¬ e.2 < now) else seen1)

/-- Content-dedup append used by the `mqtt.onMessage` handler: drop
the message when one with the same sender, timestamp and payload is
already present. -/
def contentAppend (msgs : List BrokerMsg) (m : BrokerMsg) : List BrokerMsg :=
  if msgs.any (fun x => x.sender_id == m.sender_id ∧ x.timestamp == m.timestamp ∧
      x.payload == m.payload)
  then msgs else msgs ++ [m]

/-- The renderer's `mqtt.onMessage` subscription handler: consult the
radio-side dedup window only for a truthy packet id, then append with
content dedup. -/
def rendererMqttOnMessage (seen : List (Nat × Nat)) (msgs : List BrokerMsg)
    (now : Nat) (m : BrokerMsg) : List (Nat × Nat) × List BrokerMsg :=
  if m.packetId ≠ 0 then
    let dupSeen := rfIsDuplicate seen now m.packetId
    if dupSeen.1 then (dupSeen.2, msgs)
    else (dupSeen.2, contentAppend msgs m)
  else (seen, contentAppend msgs m)

/-! ### Connection Resilience Manager: session, watchdog, reconnect

The refs and timers of `useDevice` that drive liveness and
reconnection.  Suspension points (the backoff sleep) split
`attemptReconnect` into a pre-sleep and a post-sleep half; externally
visible side effects of the post-sleep half are returned as an action
list so that "performs no side-effecting action" is expressible. -/

/-- Enum `ConnectionType`. -/
inductive ConnType where
  | ble | serial | http
  deriving DecidableEq, Repr

/-- Status enum of the device session state. -/
inductive DevStatus where
  | disconnected | connecting | connected | configured | stale | reconnecting
  deriving DecidableEq, Repr

/-- Watchdog and reconnect constants from the top of useDevice.ts. -/
def BLE_STALE_THRESHOLD_MS : Nat := 90000
def BLE_DEAD_THRESHOLD_MS : Nat := 180000
def SERIAL_STALE_THRESHOLD_MS : Nat := 120000
def SERIAL_DEAD_THRESHOLD_MS : Nat := 300000
def HTTP_STALE_THRESHOLD_MS : Nat := 60000
def HTTP_DEAD_THRESHOLD_MS : Nat := 120000
def MAX_RECONNECT_ATTEMPTS : Nat := 5

/-- The session state held across the hook's refs. -/
structure RSession where
  status : DevStatus
  lastData : Nat
  reconnectAttempt : Nat
  isReconnecting : Bool
  generation : Nat
  connectionParams : Option ConnType
  deviceAttached : Bool
  deriving DecidableEq, Repr

/-- Helper `getThresholds`: (stale, dead) per remembered transport type. -/
def getThresholds (t : Option ConnType) : Nat × Nat :=
  match t with
  | some .ble => (BLE_STALE_THRESHOLD_MS, BLE_DEAD_THRESHOLD_MS)
  | some .serial => (SERIAL_STALE_THRESHOLD_MS, SERIAL_DEAD_THRESHOLD_MS)
  | some .http => (HTTP_STALE_THRESHOLD_MS, HTTP_DEAD_THRESHOLD_MS)
  | none => (90000, 180000)

/-- Helper `touchLastData`: stamp the data clock and recover a `stale` status
to `configured`. -/
def touchLastData (s : RSession) (now : Nat) : RSession :=
  let s1 := { s with lastData := now }
  if s1.status = .stale then { s1 with status := .configured } else s1

/-- Externally visible side effects of watchdog/reconnect code. -/
inductive RAction where
  | connectionLost
  | constructDevice
  | wireSubs
  | configureDevice
  | retryReconnect
  deriving DecidableEq, Repr

/-- One watchdog tick (the 15-second interval body): no-op while a
reconnect is in flight; past `dead`, hand over to connection-loss
handling; past `stale` only, flip a `connected`/`configured` status to
`stale` and nothing else. -/
def watchdogTick (s : RSession) (now : Nat) : RSession × List RAction :=
  if s.isReconnecting then (s, [])
  else
    let elapsed := now - s.lastData
    let th := getThresholds s.connectionParams
    if th.2 < elapsed then (s, [.connectionLost])
    else if th.1 < elapsed then
      (if s.status = .configured ∨ s.status = .connected
       then { s with status := .stale } else s, [])
    else (s, [])

/-- The `onDeviceStatus` numeric-code map of the status subscriber. -/
def statusMap (code : Nat) : DevStatus :=
  if code = 1 then .connecting
  else if code = 2 then .disconnected
  else if code = 3 then .connecting
  else if code = 4 then .connecting
  else if code = 5 then .connected
  else if code = 6 then .connecting
  else if code = 7 then .configured
  else .connected

/-- The inbound device events the wired subscriptions receive. -/
inductive DevEvent where
  | statusEv (code : Nat)
  | myNodeInfoEv
  | meshPacketEv
  | userPacketEv
  | nodeInfoPacketEv
  | positionPacketEv
  | telemetryEv
  | channelEv
  | meshHeartbeatEv
  | traceRouteEv
  deriving DecidableEq, Repr

/-- Whether the subscriber for an event calls `touchLastData`: every
subscriber does except the trace-route one. -/
def DevEvent.touches : DevEvent → Bool
  | .traceRouteEv => false
  | _ => true

/-- Status-relevant effect of handling one inbound device event: all
touching subscribers stamp the data clock (recovering `stale` to
`configured`); the status subscriber then overwrites the status with
the mapped value; the trace-route subscriber does neither. -/
def devEventStep (s : RSession) (now : Nat) : DevEvent → RSession
  | .statusEv code => { touchLastData s now with status := statusMap code }
  | .traceRouteEv => s
  | _ => touchLastData s now

/-- The head of `attemptReconnect`, up to the backoff sleep: give up
into `disconnected` when no parameters are remembered or the attempt
counter has reached the maximum; otherwise capture the generation,
bump the counter, expose `reconnecting`, and return the captured
generation with the computed sleep in milliseconds. -/
def reconnectPreSleep (s : RSession) : RSession × Option (Nat × Nat) :=
  match s.connectionParams with
  | none => ({ s with isReconnecting := false, status := .disconnected }, none)
  | some _ =>
    if MAX_RECONNECT_ATTEMPTS ≤ s.reconnectAttempt then
      ({ s with isReconnecting := false, reconnectAttempt := 0,
                status := .disconnected }, none)
    else
      let captured := s.generation
      let att := s.reconnectAttempt + 1
      let delay := min (2000 * 2 ^ (att - 1)) 32000
      ({ s with reconnectAttempt := att, status := .reconnecting },
        some (captured, delay))

/-- The tail of `attemptReconnect`, after the backoff sleep wakes: if
the reconnecting flag was cleared or the generation moved on, abandon
silently — unchanged state, no actions.  Otherwise construct a device
(`ok` says whether construction succeeds), wire subscriptions and
configure on success, or recurse on failure. -/
def reconnectPostSleep (captured : Nat) (ok : Bool) (s : RSession) :
    RSession × List RAction :=
  if !s.isReconnecting ∨ s.generation ≠ captured then (s, [])
  else if ok then
    ({ s with deviceAttached := true, reconnectAttempt := 0, isReconnecting := false },
      [.constructDevice, .wireSubs, .configureDevice])
  else (s, [.constructDevice, .retryReconnect])

/-- Method `disconnect()`: clear all reconnection state, bump the generation
(invalidating any sleeping reconnect attempt), forget the connection
parameters, drop the device, report `disconnected`. -/
def rDisconnect (s : RSession) : RSession :=
  { s with isReconnecting := false, reconnectAttempt := 0,
           generation := s.generation + 1, connectionParams := none,
           deviceAttached := false, status := .disconnected }

/-- The synchronous head of `connect(type)`: remember the parameters,
reset the attempt counter, clear the reconnecting flag, bump the
generation, report `connecting`. -/
def rConnectStart (s : RSession) (t : ConnType) : RSession :=
  { s with connectionParams := some t, reconnectAttempt := 0,
           isReconnecting := false, generation := s.generation + 1,
           status := .connecting }

/-! ### Derived helpers and concrete fixtures used in the theorems -/

/-- Deliver `k` identical copies of one broker message in sequence,
collecting the emitted events. -/
def processCopies (s : MState) (now : Nat) (env : Envelope) :
    Nat → MState × List BrokerEmit
  | 0 => (s, [])
  | k + 1 =>
    let r1 := onMessage s now env
    let rest := processCopies r1.1 now env k
    (rest.1, r1.2 ++ rest.2)

/-- The per-node settledness the radio path establishes: the node is
in the RF-heard set and its stored record (if any) has the
broker-only flag cleared. -/
def NodeRfSettled (st : AppState) (n : Nat) : Prop :=
  n ∈ st.rfHeard ∧
    ∀ node, jsGet st.nodes n = some node → node.heard_via_mqtt_only = false

/-- A connected session one failed watchdog cycle away from its first
reconnect attempt. -/
def rSession0 : RSession :=
  { status := .connected, lastData := 0, reconnectAttempt := 0,
    isReconnecting := true, generation := 7, connectionParams := some .ble,
    deviceAttached := false }

/-- The connected BLE session with no reconnect in flight. -/
def rSession0WithoutReconnect : RSession :=
  { status := .connected, lastData := 0, reconnectAttempt := 0,
    isReconnecting := false, generation := 7, connectionParams := some .ble,
    deviceAttached := true }

/-- A session currently marked stale. -/
def staleSession : RSession :=
  { status := .stale, lastData := 0, reconnectAttempt := 0,
    isReconnecting := false, generation := 0, connectionParams := some .ble,
    deviceAttached := true }

/-- A broker session in its `connecting` phase with default settings. -/
def mState0 : MState :=
  { status := .connecting, retryCount := 0,
    currentSettings := some { topicPfx := ['m', 's', 'h'], maxRetries := none },
    seenPacketIds := [], reconnectTimer := none, clientIdSeed := 3, clientId := 3,
    clientPresent := true }

/-- A decoded broadcast text packet (id 42 from node 7) as the radio
path delivers it. -/
def rfDupPacket : RfMeshPacket :=
  { fromId := 7, toDest := BROADCAST_ADDR, id := 42, channel := 0, rxTime := 1000,
    decoded := some { portnum := PORT_TEXT_MESSAGE_APP, payload := 99,
                      emoji := 0, replyId := 0 } }

/-- The empty node-model state at process start. -/
def appState0 : AppState := { rfHeard := [], nodes := [], myNodeNum := 0 }

/-- A user packet for the radio-observation fixture. -/
def user5 : UserPkt := { longName := some 1, shortName := some 2, hwModel := some 3 }

/-- A minimal broker node-seen update for node 5. -/
def upd5 : MqttNodeUpd := { node_id := 5, last_heard := 300 }

/-- The record stored for node 5 after the radio observation. -/
def node5 : MeshNode :=
  { node_id := 5, long_name := 1, short_name := 2, hw_model := 3, snr := 0,
    rssi := none, battery := 0, last_heard := 100, latitude := 0, longitude := 0,
    altitude := none, role := none, hops_away := none, via_mqtt := none,
    voltage := none, channel_utiliz := none, air_util_tx := none,
    heard_via_mqtt_only := false, source := some .rf, lastPositionWarning := none }

/-- A decoded text frame for the id-0 envelope fixture. -/
def dZero : DataMsg :=
  { portnum := PORT_TEXT_MESSAGE_APP, payload := some (.textPayload 17) }

/-- A broker packet with packet identifier 0 from node 9. -/
def pktZero : MPacket :=
  { fromId := 9, id := 0, payloadVariant := some (.decoded dZero) }

/-! ## Theorems -/

/-- C3: for every packet identifier and sender node identifier, the
16-byte AES-128-CTR counter block used by both inbound decryption and
outbound encryption is the packet identifier as a little-endian 32-bit
integer in bytes 0-3, the sender identifier as a little-endian 32-bit
integer in bytes 4-7, and zero in bytes 8-15; for packet id 1 and
sender 2 it is 01 00 00 00 02 00 00 00 00 00 00 00 00 00 00 00. -/
theorem nonce_counter_block_layout :
    (∀ pid sender : Nat,
      mkNonce pid sender =
        le4 (pid % 2 ^ 32) ++ le4 (sender % 2 ^ 32) ++ List.replicate 8 0) ∧
    mkNonce 1 2 = [1, 0, 0, 0, 2, 0, 0, 0, 0, 0, 0, 0, 0, 0, 0, 0] := by
  constructor
  · intro pid sender
    rfl
  · rfl

/-- C4: the coordinate validator — the same policy on both ingestion
paths — rejects exactly when both coordinates are zero, latitude falls
outside [-90, 90], longitude falls outside [-180, 180], or the pair is
exactly (90, 0); in particular (0,0), (91,0), (0,181) and (90,0) are
rejected and (39.5, -104.9) is accepted. -/
theorem coord_validation_policy :
    (∀ lat lon : ℚ,
      (validateCoords lat lon).valid = false ↔
        ((lat = 0 ∧ lon = 0) ∨ lat < -90 ∨ 90 < lat ∨ lon < -180 ∨ 180 < lon ∨
          (lat = 90 ∧ lon = 0))) ∧
    (∀ lat lon : ℚ, coordWarning lat lon = (validateCoords lat lon).warning) ∧
    (validateCoords 0 0).valid = false ∧
    (validateCoords 91 0).valid = false ∧
    (validateCoords 0 181).valid = false ∧
    (validateCoords 90 0).valid = false ∧
    (validateCoords (39.5 : ℚ) (-104.9 : ℚ)).valid = true := by
  refine ⟨?_, ?_, by decide, by decide, by decide, by decide, by norm_num [validateCoords]⟩
  · intro lat lon
    unfold validateCoords
    split_ifs with h1 h2 h3 h4 <;> simp_all <;> tauto
  · intro lat lon
    unfold coordWarning validateCoords
    split_ifs <;> rfl

/-- C9 counterexample: for the configured prefix "msh//" the source's
normalization leaves the prefix ending in two separators ('/' last and
'/' next-to-last), so the subscribed topic is not the prefix
normalized to end in exactly one separator followed by the
wildcard. -/
theorem subscribe_topic_two_separators :
    (normalizePfx ['m', 's', 'h', '/', '/']).getLast? = some '/' ∧
    (normalizePfx ['m', 's', 'h', '/', '/']).dropLast.getLast? = some '/' ∧
    subTopic ['m', 's', 'h', '/', '/'] ≠
      specNormalizePfx ['m', 's', 'h', '/', '/'] ++ ['#'] := by
  decide

/-- C9 amended: the subscribed topic is the configured prefix with a
single separator appended exactly when the prefix does not already end
in one, followed by the wildcard suffix; consequently the topic always
ends in the two characters "/#", but a prefix already ending in
several separators is left uncollapsed. -/
theorem subscribe_topic_normalization : ∀ pfx : List Char,
    (pfx.getLast? = some '/' → subTopic pfx = pfx ++ ['#']) ∧
    (pfx.getLast? ≠ some '/' → subTopic pfx = pfx ++ ['/', '#']) ∧
    (subTopic pfx).reverse.take 2 = ['#', '/'] := by
  intro pfx
  by_cases h : pfx.getLast? = some '/'
  · refine ⟨fun _ => by simp [subTopic, normalizePfx, h], fun hc => absurd h hc, ?_⟩
    have hrev : pfx.reverse.head? = some '/' := by
      rw [List.head?_reverse]; exact h
    cases hr : pfx.reverse with
    | nil => simp [hr] at hrev
    | cons c t =>
      have hc : c = '/' := by simp [hr] at hrev; exact hrev
      simp [subTopic, normalizePfx, h, hr, hc]
  · refine ⟨fun hc => absurd hc h, fun _ => by simp [subTopic, normalizePfx, h], ?_⟩
    simp [subTopic, normalizePfx, h]

/-- C9 amended, witness: the prefix "msh" (no trailing separator) gets
exactly one separator appended before the wildcard. -/
theorem subscribe_topic_normalization_witness :
    subTopic ['m', 's', 'h'] = ['m', 's', 'h'] ++ ['/', '#'] :=
  (subscribe_topic_normalization ['m', 's', 'h']).2.1 (by decide)

/-- C5: radio-path reconnect attempt n (1 ≤ n ≤ 5) sleeps exactly
min(2000·2^(n-1), 32000) ms — the sequence 2000, 4000, 8000, 16000,
32000 — and a sixth attempt is never made: entering the procedure with
the attempt counter at the maximum of 5 resets the counter to 0, sets
status `disconnected`, and schedules no sleep. -/
theorem reconnect_backoff_schedule : ∀ (s : RSession) (n : Nat),
    s.connectionParams.isSome = true →
    ((1 ≤ n → n ≤ 5 → s.reconnectAttempt = n - 1 →
      reconnectPreSleep s =
        ({ s with reconnectAttempt := n, status := .reconnecting },
          some (s.generation, min (2000 * 2 ^ (n - 1)) 32000)) ∧
      [2000, 4000, 8000, 16000, 32000][n - 1]? =
        some (min (2000 * 2 ^ (n - 1)) 32000)) ∧
    (s.reconnectAttempt = MAX_RECONNECT_ATTEMPTS →
      reconnectPreSleep s =
        ({ s with isReconnecting := false, reconnectAttempt := 0,
                  status := .disconnected }, none))) := by
  intro s n hp
  rcases hcp : s.connectionParams with _ | t
  · rw [hcp] at hp; simp at hp
  constructor
  · intro h1 h5 ha
    interval_cases n <;>
      simp_all [reconnectPreSleep, MAX_RECONNECT_ATTEMPTS]
  · intro hmax
    simp [reconnectPreSleep, hcp, hmax, MAX_RECONNECT_ATTEMPTS]

/-- C5 witness: a first reconnect attempt from a remembered BLE
session sleeps 2000 ms. -/
theorem reconnect_backoff_schedule_witness :
    reconnectPreSleep rSession0 =
      ({ rSession0 with reconnectAttempt := 1, status := .reconnecting },
        some (rSession0.generation, min (2000 * 2 ^ (1 - 1)) 32000)) :=
  (((reconnect_backoff_schedule rSession0 1 (by decide)).1
    (by decide) (by decide) (by decide)).1)

/-- C6: a disconnect (or a new explicit connect) during a reconnect
attempt's backoff sleep clears the reconnecting flag and moves the
generation past the captured one, so the sleeping attempt, on waking,
returns with the state unchanged and performs no side-effecting action
(no device construction, no event wiring, no configure, no retry). -/
theorem reconnect_cancelled_by_generation :
    ∀ (s : RSession) (captured : Nat) (ok : Bool) (t : ConnType),
    captured = s.generation →
    reconnectPostSleep captured ok (rDisconnect s) = (rDisconnect s, []) ∧
    (rDisconnect s).generation ≠ captured ∧
    reconnectPostSleep captured ok (rConnectStart s t) = (rConnectStart s t, []) ∧
    (rConnectStart s t).generation ≠ captured := by
  intro s captured ok t hcap
  subst hcap
  refine ⟨?_, by simp [rDisconnect], ?_, by simp [rConnectStart]⟩
  · simp [reconnectPostSleep, rDisconnect]
  · simp [reconnectPostSleep, rConnectStart]

/-- C6 witness: a disconnect invalidates a sleeping first attempt of
the concrete session. -/
theorem reconnect_cancelled_by_generation_witness :
    reconnectPostSleep rSession0.generation true (rDisconnect rSession0) =
      (rDisconnect rSession0, []) :=
  (reconnect_cancelled_by_generation rSession0 rSession0.generation true .ble rfl).1

/-- C7: the Broker Bridge status machine — `connecting` goes to
`connected` on the broker's connect acknowledgment; an unexpected
close with the retry count below the (default 5) maximum increments
the count, flips status to `connecting` and schedules a reconnect
after min(2000·2^(retry_count−1), 60000) ms which, when it fires,
draws a fresh client identity; an unexpected close with the budget
exhausted sets `error` and schedules nothing; and a transient
socket-level error by itself changes nothing. -/
theorem broker_status_machine :
    (∀ s : MState, s.status = .connecting → (onConnectAck s).status = .connected) ∧
    (∀ (s : MState) (st : MQTTSettings), s.currentSettings = some st →
      s.status ≠ .disconnected → s.retryCount < st.maxRetries.getD 5 →
      onCloseEvent s =
        ({ s with retryCount := s.retryCount + 1, status := .connecting,
                  reconnectTimer := some (min (2000 * 2 ^ s.retryCount) 60000) },
          some (min (2000 * 2 ^ s.retryCount) 60000)) ∧
      (fireReconnectTimer (onCloseEvent s).1).clientId = s.clientIdSeed + 1 ∧
      (s.clientId ≤ s.clientIdSeed →
        (fireReconnectTimer (onCloseEvent s).1).clientId ≠ s.clientId)) ∧
    (∀ (s : MState) (st : MQTTSettings), s.currentSettings = some st →
      s.status ≠ .disconnected → st.maxRetries.getD 5 ≤ s.retryCount →
      onCloseEvent s = (setError s, none) ∧ (onCloseEvent s).1.status = .error) ∧
    (∀ (s : MState) (c : ErrCode), isTransientErr c = true → onErrorEvent s c = s) := by
  refine ⟨?_, ?_, ?_, ?_⟩
  · intro s _
    simp [onConnectAck, setStatus]
  · intro s st hset hnd hlt
    have hclose : onCloseEvent s =
        ({ s with retryCount := s.retryCount + 1, status := .connecting,
                  reconnectTimer := some (min (2000 * 2 ^ s.retryCount) 60000) },
          some (min (2000 * 2 ^ s.retryCount) 60000)) := by
      simp [onCloseEvent, hset, hnd, Nat.not_le.mpr hlt]
    refine ⟨hclose, ?_, ?_⟩
    · rw [hclose]
      simp [fireReconnectTimer, hset, doConnect]
    · intro hle
      rw [hclose]
      simp only [fireReconnectTimer, hset, doConnect]
      simp
      omega
  · intro s st hset hnd hge
    constructor
    · simp [onCloseEvent, hset, hnd, hge]
    · simp [onCloseEvent, hset, hnd, hge, setError]
  · intro s c htrans
    simp [onErrorEvent, htrans]

/-- C7 witness: a close on the concrete connecting session with retry
count 0 schedules the first 2000 ms reconnect. -/
theorem broker_status_machine_witness :
    onCloseEvent mState0 =
      ({ mState0 with retryCount := mState0.retryCount + 1, status := .connecting,
                      reconnectTimer := some (min (2000 * 2 ^ mState0.retryCount) 60000) },
        some (min (2000 * 2 ^ mState0.retryCount) 60000)) :=
  (broker_status_machine.2.1 mState0 { topicPfx := ['m', 's', 'h'], maxRetries := none }
    rfl (by decide) (by decide)).1

/-- C8 counterexample: not every inbound device event restores a
`stale` status to `configured` — the trace-route response subscriber
never stamps the data clock, so a stale session receiving a
trace-route packet stays `stale`. -/
theorem stale_not_restored_by_trace_route :
    (devEventStep staleSession 1000 DevEvent.traceRouteEv).status ≠
      DevStatus.configured ∧
    devEventStep staleSession 1000 DevEvent.traceRouteEv = staleSession := by
  decide

/-- C8 amended: a watchdog tick past the transport's stale threshold
but not its dead threshold (BLE 90s/180s, serial 120s/300s, HTTP
60s/120s) while the status is `connected` or `configured` only flips
the status to `stale` — no teardown action, no other state change; a
subsequent inbound device event restores `stale` to `configured`
provided it is one of the events whose subscriber stamps the data
clock and it is not a device-status event (whose subscriber instead
overwrites the status with that event's mapped value); the trace-route
response, whose subscriber stamps nothing, leaves the session
unchanged. -/
theorem watchdog_stale_cycle :
    (∀ (s : RSession) (now : Nat),
      s.isReconnecting = false →
      (getThresholds s.connectionParams).1 < now - s.lastData →
      now - s.lastData ≤ (getThresholds s.connectionParams).2 →
      (s.status = .connected ∨ s.status = .configured) →
      watchdogTick s now = ({ s with status := .stale }, [])) ∧
    getThresholds (some .ble) = (90000, 180000) ∧
    getThresholds (some .serial) = (120000, 300000) ∧
    getThresholds (some .http) = (60000, 120000) ∧
    (∀ (s : RSession) (now : Nat) (e : DevEvent),
      e.touches = true → (∀ c, e ≠ .statusEv c) → s.status = .stale →
      (devEventStep s now e).status = .configured) ∧
    (∀ (s : RSession) (now : Nat), devEventStep s now .traceRouteEv = s) := by
  refine ⟨?_, by decide, by decide, by decide, ?_, fun s now => rfl⟩
  · intro s now hrec hstale hdead hst
    have hnd : ¬ (getThresholds s.connectionParams).2 < now - s.lastData :=
      Nat.not_lt.mpr hdead
    rcases hst with h | h <;>
      simp [watchdogTick, hrec, hstale, hnd, h]
  · intro s now e htouch hnstat hstale
    cases e <;> simp_all [devEventStep, touchLastData, DevEvent.touches]

/-- C8 amended, witness: a watchdog tick 100 s into silence on the
stale BLE session's `connected` predecessor flips it to stale with no
actions. -/
theorem watchdog_stale_cycle_witness :
    watchdogTick rSession0WithoutReconnect 100000 =
      ({ rSession0WithoutReconnect with status := .stale }, []) :=
  watchdog_stale_cycle.1 rSession0WithoutReconnect 100000 rfl (by decide) (by decide)
    (Or.inl rfl)

/-- Reading back the key just written. -/
theorem jsGet_jsSet_self {α : Type} (m : List (Nat × α)) (k : Nat) (v : α) :
    jsGet (jsSet m k v) k = some v := by
  induction m with
  | nil => simp [jsGet, jsSet]
  | cons e rest ih =>
    by_cases h : e.1 = k
    · simp [jsSet, jsGet, h]
    · simp [jsSet, jsGet, h, ih]

/-- Reading any other key is unaffected by a write. -/
theorem jsGet_jsSet_ne {α : Type} (m : List (Nat × α)) (k k' : Nat) (v : α)
    (h : k' ≠ k) : jsGet (jsSet m k v) k' = jsGet m k' := by
  induction m with
  | nil => simp [jsGet, jsSet, h, Ne.symm h]
  | cons e rest ih =>
    by_cases he : e.1 = k
    · simp [jsSet, jsGet, he, h, Ne.symm h]
    · simp [jsSet, jsGet, he, ih]

/-- No handler ever removes an id from the RF-heard set. -/
theorem nodeStep_rfHeard_mono (st : AppState) (e : NodeEvent) :
    st.rfHeard ⊆ (nodeStep st e).rfHeard := by
  cases e with
  | rfUser now fromId u =>
    simp only [nodeStep, onUserPacket]
    exact List.subset_insert _ _
  | rfNodeInfo now info =>
    simp only [nodeStep, onNodeInfoPacket]
    split_ifs <;> exact List.subset_insert _ _
  | rfPosition now fromId pos =>
    simp only [nodeStep, onPositionPacket]
    split_ifs <;> exact fun a ha => ha
  | rfTelemetry now fromId b =>
    simp only [nodeStep, onTelemetryPacket]
    split_ifs <;> (try split) <;> exact fun a ha => ha
  | rfMeshSnr now fromId rxSnr rxRssi =>
    simp only [nodeStep, onMeshPacketSnr]
    split_ifs <;> (try split) <;> exact fun a ha => ha
  | rfMyNodeInfo num =>
    simp only [nodeStep, onMyNodeInfo]
    split <;> exact fun a ha => ha
  | brokerNode now upd =>
    simp only [nodeStep, mqttOnNodeUpdate]
    split_ifs <;> exact fun a ha => ha

/-- One node-model step preserves per-node RF settledness: the
RF-heard set only grows, and every handler either writes the observed
node's record with the broker-only flag false (the RF identity
handlers and — because the node is RF-heard — the broker merge) or
carries the existing flag over unchanged. -/
theorem nodeStep_preserves_settled (st : AppState) (n : Nat) (e : NodeEvent)
    (h : NodeRfSettled st n) : NodeRfSettled (nodeStep st e) n := by
  obtain ⟨hmem, hflag⟩ := h
  have hmem' : n ∈ (nodeStep st e).rfHeard := nodeStep_rfHeard_mono st e hmem
  have hflagD : ∀ (key : Nat) (v : MeshNode),
      (key = n → v.heard_via_mqtt_only = false) →
      ∀ node, jsGet (jsSet st.nodes key v) n = some node →
        node.heard_via_mqtt_only = false := by
    intro key v hv node hget
    by_cases hk : key = n
    · subst hk
      rw [jsGet_jsSet_self] at hget
      cases hget
      exact hv rfl
    · rw [jsGet_jsSet_ne _ _ _ _ (fun hh => hk hh.symm)] at hget
      exact hflag node hget
  have hexist : ((jsGet st.nodes n).getD (emptyNode n)).heard_via_mqtt_only = false := by
    cases hg : jsGet st.nodes n with
    | none => simp [emptyNode]
    | some ex => simpa using hflag ex hg
  cases e with
  | rfUser now fromId u =>
    refine ⟨hmem', ?_⟩
    intro node hget
    exact hflagD fromId _ (fun _ => rfl) node (by simpa [nodeStep, onUserPacket] using hget)
  | rfNodeInfo now info =>
    refine ⟨hmem', ?_⟩
    intro node hget
    by_cases h0 : info.num = 0
    · exact hflag node (by simpa [nodeStep, onNodeInfoPacket, h0] using hget)
    · exact hflagD info.num _ (fun _ => rfl) node
        (by simpa [nodeStep, onNodeInfoPacket, h0] using hget)
  | rfPosition now fromId pos =>
    refine ⟨hmem', ?_⟩
    intro node hget
    by_cases hv : (validateCoords (((pos.latitudeI.getD 0 : Int) : ℚ) / 10000000)
        (((pos.longitudeI.getD 0 : Int) : ℚ) / 10000000)).valid
    · refine hflagD fromId _ (fun hk => ?_) node
        (by simpa [nodeStep, onPositionPacket, hv] using hget)
      subst hk; simpa using hexist
    · refine hflagD fromId _ (fun hk => ?_) node
        (by simpa [nodeStep, onPositionPacket, hv] using hget)
      subst hk; simpa using hexist
  | rfTelemetry now fromId b =>
    refine ⟨hmem', ?_⟩
    intro node hget
    by_cases hc : (b.getD 0 ≠ 0) ∧ fromId ≠ 0
    · cases hg : jsGet st.nodes fromId with
      | none => exact hflag node (by simpa [nodeStep, onTelemetryPacket, hc, hg] using hget)
      | some ex =>
        refine hflagD fromId _ (fun hk => ?_) node
          (by simpa [nodeStep, onTelemetryPacket, hc, hg] using hget)
        subst hk
        simpa using hflag ex hg
    · exact hflag node (by simpa [nodeStep, onTelemetryPacket, hc] using hget)
  | rfMeshSnr now fromId rxSnr rxRssi =>
    refine ⟨hmem', ?_⟩
    intro node hget
    by_cases h0 : fromId = 0
    · exact hflag node (by simpa [nodeStep, onMeshPacketSnr, h0] using hget)
    · by_cases hc : rxSnr.getD 0 ≠ 0 ∨ rxRssi.getD 0 ≠ 0
      · cases hg : jsGet st.nodes fromId with
        | none =>
          exact hflag node (by simpa [nodeStep, onMeshPacketSnr, h0, hc, hg] using hget)
        | some ex =>
          refine hflagD fromId _ (fun hk => ?_) node
            (by simpa [nodeStep, onMeshPacketSnr, h0, hc, hg] using hget)
          subst hk
          simpa using hflag ex hg
      · exact hflag node (by simpa [nodeStep, onMeshPacketSnr, h0, hc] using hget)
  | rfMyNodeInfo num =>
    refine ⟨hmem', ?_⟩
    intro node hget
    cases hg : jsGet st.nodes num with
    | some ex => exact hflag node (by simpa [nodeStep, onMyNodeInfo, hg] using hget)
    | none =>
      refine hflagD num (emptyNode num) (fun _ => by simp [emptyNode]) node
        (by simpa [nodeStep, onMyNodeInfo, hg] using hget)
  | brokerNode now upd =>
    refine ⟨hmem', ?_⟩
    intro node hget
    by_cases h0 : upd.node_id = 0
    · exact hflag node (by simpa [nodeStep, mqttOnNodeUpdate, h0] using hget)
    · refine hflagD upd.node_id _ (fun hk => ?_) node
        (by simpa [nodeStep, mqttOnNodeUpdate, h0] using hget)
      subst hk
      simp only [hmem]
      split_ifs <;> rcases upd.positionWarning with _ | _ | w <;> simp [hmem]

/-- RF settledness survives any event trace. -/
theorem nodeSteps_preserve_settled (st : AppState) (n : Nat) (evs : List NodeEvent)
    (h : NodeRfSettled st n) : NodeRfSettled (nodeSteps st evs) n := by
  induction evs generalizing st with
  | nil => exact h
  | cons e rest ih => exact ih _ (nodeStep_preserves_settled _ _ _ h)

/-- A radio observation of `n` establishes RF settledness. -/
theorem observe_settles (st : AppState) (e : NodeEvent) (n : Nat)
    (h : RadioObserves e n) : NodeRfSettled (nodeStep st e) n := by
  rcases h with ⟨now, u, rfl⟩ | ⟨now, info, rfl, hnum, hn0⟩
  · refine ⟨by simp only [nodeStep, onUserPacket]; exact List.mem_insert_self _ _, ?_⟩
    intro node hget
    simp only [nodeStep, onUserPacket] at hget
    rw [jsGet_jsSet_self] at hget
    cases hget
    rfl
  · subst hnum
    refine ⟨?_, ?_⟩
    · simp only [nodeStep, onNodeInfoPacket]
      split_ifs <;> exact List.mem_insert_self _ _
    intro node hget
    simp only [nodeStep, onNodeInfoPacket] at hget
    rw [if_neg hn0] at hget
    rw [jsGet_jsSet_self] at hget
    cases hget
    rfl

/-- A broker-emitted node update never changes a stored record's snr,
rssi or hops-away fields (the update objects the bridge emits carry no
such keys, and the merge restores them explicitly for broker-only
nodes). -/
theorem mqtt_update_preserves_rf_metrics (st : AppState) (now : Nat)
    (upd : MqttNodeUpd) (node : MeshNode)
    (hget : jsGet st.nodes upd.node_id = some node) :
    ∃ node', jsGet (mqttOnNodeUpdate st now upd).nodes upd.node_id = some node' ∧
      node'.snr = node.snr ∧ node'.rssi = node.rssi ∧
      node'.hops_away = node.hops_away := by
  by_cases h0 : upd.node_id = 0
  · exact ⟨node, by simpa [mqttOnNodeUpdate, h0] using hget, rfl, rfl, rfl⟩
  · unfold mqttOnNodeUpdate
    rw [if_neg h0]
    refine ⟨_, jsGet_jsSet_self _ _ _, ?_, ?_, ?_⟩ <;>
      · simp only [hget, Option.getD_some]
        split_ifs <;> rcases upd.positionWarning with _ | _ | w <;> simp

/-- C2: once node n is observed via the radio path during the process
lifetime (a user packet from n or a NodeInfo packet carrying n), in
every subsequent state n stays RF-heard and its stored record's
heard-via-broker-only flag is false, and a broker-sourced node update
applied at any subsequent state leaves n's snr, rssi and hops_away
fields unchanged (and the flag false). -/
theorem rf_provenance_invariant :
    ∀ (s0 : AppState) (evs1 : List NodeEvent) (obs : NodeEvent) (n : Nat)
      (evs2 : List NodeEvent), RadioObserves obs n →
    n ∈ (nodeSteps (nodeStep (nodeSteps s0 evs1) obs) evs2).rfHeard ∧
    (∀ node,
      jsGet (nodeSteps (nodeStep (nodeSteps s0 evs1) obs) evs2).nodes n = some node →
      node.heard_via_mqtt_only = false) ∧
    (∀ (now : Nat) (upd : MqttNodeUpd) (node : MeshNode), upd.node_id = n →
      jsGet (nodeSteps (nodeStep (nodeSteps s0 evs1) obs) evs2).nodes n = some node →
      ∃ node',
        jsGet (nodeStep (nodeSteps (nodeStep (nodeSteps s0 evs1) obs) evs2)
          (.brokerNode now upd)).nodes n = some node' ∧
        node'.snr = node.snr ∧ node'.rssi = node.rssi ∧
        node'.hops_away = node.hops_away ∧ node'.heard_via_mqtt_only = false) := by
  intro s0 evs1 obs n evs2 hobs
  have hsettled : NodeRfSettled (nodeSteps (nodeStep (nodeSteps s0 evs1) obs) evs2) n :=
    nodeSteps_preserve_settled _ _ _ (observe_settles _ _ _ hobs)
  refine ⟨hsettled.1, hsettled.2, ?_⟩
  intro now upd node hid hget
  obtain ⟨node', hget', hsnr, hrssi, hhops⟩ :=
    mqtt_update_preserves_rf_metrics
      (nodeSteps (nodeStep (nodeSteps s0 evs1) obs) evs2) now upd node
      (by rw [hid]; exact hget)
  rw [hid] at hget'
  have hsettled' :
      NodeRfSettled (nodeStep (nodeSteps (nodeStep (nodeSteps s0 evs1) obs) evs2)
        (.brokerNode now upd)) n :=
    nodeStep_preserves_settled _ _ _ hsettled
  exact ⟨node', hget', hsnr, hrssi, hhops, hsettled'.2 node' hget'⟩

/-- C2 witness: the spec's end-to-end shape — node 5 is observed on
the radio path, then a broker node-seen update arrives; the stored
record keeps its RF metrics and its broker-only flag stays false. -/
theorem rf_provenance_invariant_witness :
    ∃ node',
      jsGet (nodeStep (nodeSteps (nodeStep (nodeSteps appState0 [])
          (NodeEvent.rfUser 100 5 user5)) [])
        (NodeEvent.brokerNode 300 upd5)).nodes 5 = some node' ∧
      node'.snr = node5.snr ∧ node'.rssi = node5.rssi ∧
      node'.hops_away = node5.hops_away ∧ node'.heard_via_mqtt_only = false :=
  (rf_provenance_invariant appState0 [] (NodeEvent.rfUser 100 5 user5) 5 []
    (Or.inl ⟨100, user5, rfl⟩)).2.2 300 upd5 node5 rfl (by decide)

/-- C1, at the failing input: the radio-path text-message subscriber
consults no packet-identifier dedup window, so the same decoded text
packet (id 42 from node 7) delivered twice — here one second apart,
well within the 10-minute TTL — is appended to the message list twice:
after the second delivery the list holds two messages with packet id
42.  (The broker path does dedup by id; the radio path, despite the
source comments calling `seenPacketIds` "shared by RF and MQTT
handlers", never calls `isDuplicate` in any device subscriber.) -/
theorem radio_text_no_packet_dedup :
    (rfTextHandler 1 none 5000 [] rfDupPacket).1.length = 1 ∧
    ((rfTextHandler 1 none 6000 (rfTextHandler 1 none 5000 [] rfDupPacket).1
        rfDupPacket).1.length = 2 ∧
      ((rfTextHandler 1 none 6000 (rfTextHandler 1 none 5000 [] rfDupPacket).1
        rfDupPacket).1.countP (fun m => m.packetId == 42)) = 2) := by
  decide

/-- Every branch of the bridge's port dispatch emits at least one
event. -/
theorem handleDecoded_ne_nil (nodeId pid now : Nat) (d : DataMsg) :
    handleDecoded nodeId pid now d ≠ [] := by
  rcases d with ⟨pn, _ | pc⟩
  · unfold handleDecoded minimalNodeUpdate
    split_ifs <;> simp_all
  · cases pc with
    | positionPayload p =>
      unfold handleDecoded minimalNodeUpdate
      split_ifs <;>
        rcases hw : coordWarning ((p.latitudeI : ℚ) / 10000000)
          ((p.longitudeI : ℚ) / 10000000) with _ | w <;>
        (first | (simp only [hw]; split_ifs <;> simp) | simp [hw])
    | userPayload u =>
      unfold handleDecoded minimalNodeUpdate
      split_ifs <;> simp
    | textPayload t =>
      unfold handleDecoded minimalNodeUpdate
      split_ifs <;> simp
    | badBytes =>
      unfold handleDecoded minimalNodeUpdate
      split_ifs <;> simp

/-- C10: a broker envelope whose decoded packet identifier is 0
bypasses the bridge's dedup window entirely — the window is neither
consulted nor updated, the manager state is untouched, and the packet
is always dispatched, so k copies within the TTL produce k identical
dispatch batches; the renderer-side handler applies the same bypass,
leaving its dedup window untouched for a broker message with packet
id 0. -/
theorem packet_id_zero_bypasses_dedup :
    ∀ (s : MState) (now : Nat) (pkt : MPacket) (d : DataMsg),
    pkt.id = 0 → pkt.fromId ≠ 0 → pkt.payloadVariant = some (.decoded d) →
    (onMessage s now ⟨some pkt⟩ = (s, handleDecoded pkt.fromId 0 now d) ∧
     handleDecoded pkt.fromId 0 now d ≠ [] ∧
     (∀ k, processCopies s now ⟨some pkt⟩ k =
        (s, (List.replicate k (handleDecoded pkt.fromId 0 now d)).flatten)) ∧
     (∀ (seen : List (Nat × Nat)) (msgs : List BrokerMsg) (now2 : Nat) (m : BrokerMsg),
        m.packetId = 0 → (rendererMqttOnMessage seen msgs now2 m).1 = seen)) := by
  intro s now pkt d hid hfrom hpv
  have hmsg : onMessage s now ⟨some pkt⟩ = (s, handleDecoded pkt.fromId 0 now d) := by
    simp [onMessage, hpv, hfrom, hid]
  refine ⟨hmsg, handleDecoded_ne_nil _ _ _ _, ?_, ?_⟩
  · intro k
    induction k with
    | zero => simp [processCopies]
    | succ k ih => simp [processCopies, hmsg, ih, List.replicate_succ]
  · intro seen msgs now2 m hm
    simp [rendererMqttOnMessage, hm]

/-- C10 witness: one concrete id-0 text envelope from node 9 leaves
the manager state untouched and dispatches on each of two copies. -/
theorem packet_id_zero_bypasses_dedup_witness :
    processCopies mState0 1000 ⟨some pktZero⟩ 2 =
      (mState0, (List.replicate 2 (handleDecoded pktZero.fromId 0 1000 dZero)).flatten) :=
  (packet_id_zero_bypasses_dedup mState0 1000 pktZero dZero rfl
    (by decide) rfl).2.2.1 2

end MeshClient
